import Mathlib

/-!
Shallow embedding of the udpbd-vexfat server (src/main.rs, src/server.rs,
src/vexfat.rs, src/protocol.rs, src/utils.rs).

Machine integers are modelled as `Nat` with explicit reduction modulo
`2^w` exactly where the Rust code can overflow; wrapping follows Rust
release-profile semantics (two's-complement wrap on add/sub/mul, masked
shift amounts).  Fallible paths (a slice index that would panic) are
modelled with `Option`: `none` is a panic.
-/

namespace UdpbdVexfat

/-- Wrap to u8 range (Rust release-mode `u8` overflow semantics). -/
def wrap8 (n : Nat) : Nat := n % 256

/-- Wrap to u16 range (Rust release-mode `u16` overflow semantics). -/
def wrap16 (n : Nat) : Nat := n % 65536

/-- Wrap to u64 range (Rust release-mode `u64` overflow semantics). -/
def wrap64 (n : Nat) : Nat := n % (2 ^ 64)

/-! ## protocol.rs -/

/-- `UDP_MAX_PAYLOAD` from src/protocol.rs. -/
def UDP_MAX_PAYLOAD : Nat := 1472

/-- `RDMA_MAX_PAYLOAD = UDP_MAX_PAYLOAD - size_of::<Header>() - size_of::<BlockType>()`
from src/protocol.rs (header is 2 bytes, block type is 4 bytes). -/
def RDMA_MAX_PAYLOAD : Nat := UDP_MAX_PAYLOAD - 2 - 4

/-- `BlockType::blocks_size` from src/protocol.rs:
`block_count * (1 << (block_shift + 2))` computed on `u16`.
`block_count` is the 9-bit field value, `block_shift` the 4-bit field value.
In release builds a shift amount `≥ 16` is masked and the product wraps. -/
def blocks_size (block_shift block_count : Nat) : Nat :=
  wrap16 (block_count * (1 <<< ((block_shift + 2) % 16)))

/-- `WriteReply` packet body from src/protocol.rs (header fields unpacked). -/
structure WriteReply where
  command : Nat
  command_id : Nat
  command_pkt : Nat
  result : Int
deriving DecidableEq, Repr

/-- `InfoReply` packet body from src/protocol.rs (header fields unpacked). -/
structure InfoReply where
  command : Nat
  command_id : Nat
  command_pkt : Nat
  sector_size : Nat
  sector_count : Nat
deriving DecidableEq, Repr

/-- Little-endian byte serialization of `n` into `w` bytes. -/
def le_bytes (w n : Nat) : List Nat :=
  (List.range w).map (fun i => (n >>> (8 * i)) % 256)

/-- The 16-bit raw value of a `Header` bitfield (src/protocol.rs):
bits 0..=4 command, 5..=7 command_id, 8..=15 command_pkt. -/
def header_raw (command command_id command_pkt : Nat) : Nat :=
  command % 32 + (command_id % 8) * 32 + (command_pkt % 256) * 256

/-- Byte serialization of an `InfoReply`: 2-byte header, then
`sector_size : u32` and `sector_count : u32`, all little-endian
(`#[repr(packed)]`, no padding). -/
def serialize_info_reply (r : InfoReply) : List Nat :=
  le_bytes 2 (header_raw r.command r.command_id r.command_pkt) ++
    le_bytes 4 r.sector_size ++ le_bytes 4 r.sector_count

/-! ## vexfat.rs geometry -/

/-- `BYTES_PER_SECTOR_SHIFT` from src/vexfat.rs. -/
def BYTES_PER_SECTOR_SHIFT : Nat := 9

/-- Modelled from the spec: `VexFat::sector_size` returns
`vexfatbd::VirtualExFatBlockDevice::bytes_per_sector`, whose source lives in
the external `vexfatbd` crate and is not under src/.  The spec fixes
`bytes_per_sector_shift = 9` (sector size 512 bytes), and src/vexfat.rs
constructs the device with `BYTES_PER_SECTOR_SHIFT = 9`. -/
def bytes_per_sector : Nat := 1 <<< BYTES_PER_SECTOR_SHIFT

/-- `unsigned_rounded_up_div` from src/utils.rs instantiated at `T = u64`:
`a.sub(1).div(b).add(1)`.  The subtraction and addition wrap modulo `2^64`
in release builds (debug builds panic when `a = 0`). -/
def unsigned_rounded_up_div64 (a b : Nat) : Nat :=
  wrap64 (wrap64 (a + (2 ^ 64 - 1)) / b + 1)

/-- `unsigned_align_to` from src/utils.rs instantiated at `T = u64`:
`unsigned_rounded_up_div(a, b).mul(b)`, product wrapping modulo `2^64`. -/
def unsigned_align_to64 (a b : Nat) : Nat :=
  wrap64 (unsigned_rounded_up_div64 a b * b)

/-- `bytes_per_cluster = sectors_per_cluster * sector_size`
from `VexFat::new` (src/vexfat.rs): `(1 << 11) * (1 << 9) = 2^20`. -/
def bytes_per_cluster : Nat := (1 <<< 11) * (1 <<< 9)

/-- `cluster_count` as computed by `VexFat::new` (src/vexfat.rs):
`unsigned_align_to(unsigned_rounded_up_div(total_files_bytes, bytes_per_cluster)
 + 3 * (total_dirs_count + total_files_count), 2)` on `u64`. -/
def cluster_count_code (total_files_bytes total_dirs_count total_files_count : Nat) : Nat :=
  unsigned_align_to64
    (wrap64 (unsigned_rounded_up_div64 total_files_bytes bytes_per_cluster +
      3 * (total_dirs_count + total_files_count)))
    2

/-- `sector_count = cluster_count * sectors_per_cluster` as computed by
`VexFat::new` (src/vexfat.rs) on `u64`. -/
def sector_count_code (total_files_bytes total_dirs_count total_files_count : Nat) : Nat :=
  wrap64 (cluster_count_code total_files_bytes total_dirs_count total_files_count * (1 <<< 11))

/-- Exact ceiling division, following the spec's words
(`ceil(total_file_bytes / 2^20)`), for comparison with the code's
`unsigned_rounded_up_div`. -/
def ceil_div_spec (a b : Nat) : Nat :=
  if a % b = 0 then a / b else a / b + 1

/-- "Rounded up to a multiple of 2", following the spec's words. -/
def align2_spec (a : Nat) : Nat := 2 * ceil_div_spec a 2

/-- The cluster count the claim asserts:
`ceil(total_file_bytes / 2^20) + 3 * (dirs + files)` rounded up to a
multiple of 2, in exact arithmetic. -/
def cluster_count_claim (total_files_bytes total_dirs_count total_files_count : Nat) : Nat :=
  align2_spec (ceil_div_spec total_files_bytes (2 ^ 20) +
    3 * (total_dirs_count + total_files_count))

/-! ## Block-size tuning (src/vexfat.rs and src/main.rs) -/

/-- The tuple of fields written by `set_block_shift`:
`(block_shift, block_size, blocks_per_packet, blocks_per_socket)`. -/
structure BlockParams where
  block_shift : Nat
  block_size : Nat
  blocks_per_packet : Nat
  blocks_per_socket : Nat
deriving DecidableEq, Repr

/-- `VexFat::set_block_shift` (src/vexfat.rs): `block_size = 1 << (shift + 2)`
on `u16` (`shift` is `u8`), `blocks_per_packet = RDMA_MAX_PAYLOAD as u16 / block_size`,
`blocks_per_socket = self.sector_size() / block_size`.  The early return when
the shift is unchanged is state-extensionally the identity, so the resulting
field values are modelled as a pure function of the shift. -/
def vexfat_set_block_shift (shift : Nat) : BlockParams :=
  let block_size := wrap16 (1 <<< (((shift + 2) % 256) % 16))
  { block_shift := shift
    block_size := block_size
    blocks_per_packet := RDMA_MAX_PAYLOAD / block_size
    blocks_per_socket := bytes_per_sector / block_size }

/-- The shift selected by `VexFat::set_block_shift_sectors` (src/vexfat.rs):
`size = sectors * sector_size` on `u32` (exact for `sectors < 2^16`),
then the cascade over `(size + cap - 1) / cap`. -/
def vexfat_chosen_shift (sectors : Nat) : Nat :=
  let size := sectors * bytes_per_sector
  let packets_min := (size + 1440 - 1) / 1440
  let packets_128 := (size + 1408 - 1) / 1408
  let packets_256 := (size + 1280 - 1) / 1280
  let packets_512 := (size + 1024 - 1) / 1024
  if packets_512 = packets_min then 7
  else if packets_256 = packets_min then 6
  else if packets_128 = packets_min then 5
  else 3

/-- `VexFat::set_block_shift_sectors` (src/vexfat.rs). -/
def vexfat_set_block_shift_sectors (sectors : Nat) : BlockParams :=
  vexfat_set_block_shift (vexfat_chosen_shift sectors)

/-- `BlockDevice::sector_size` from src/main.rs: the constant 512. -/
def main_sector_size : Nat := 512

/-- `Server::set_block_shift` (src/main.rs); identical to the vexfat.rs
version except that the sector size is `BlockDevice::sector_size()`. -/
def main_set_block_shift (shift : Nat) : BlockParams :=
  let block_size := wrap16 (1 <<< (((shift + 2) % 256) % 16))
  { block_shift := shift
    block_size := block_size
    blocks_per_packet := RDMA_MAX_PAYLOAD / block_size
    blocks_per_socket := main_sector_size / block_size }

/-- The shift selected by `Server::set_block_shift_sectors` (src/main.rs). -/
def main_chosen_shift (sectors : Nat) : Nat :=
  let size := sectors * main_sector_size
  let packets_min := (size + 1440 - 1) / 1440
  let packets_128 := (size + 1408 - 1) / 1408
  let packets_256 := (size + 1280 - 1) / 1280
  let packets_512 := (size + 1024 - 1) / 1024
  if packets_512 = packets_min then 7
  else if packets_256 = packets_min then 6
  else if packets_128 = packets_min then 5
  else 3

/-- `Server::set_block_shift_sectors` (src/main.rs). -/
def main_set_block_shift_sectors (sectors : Nat) : BlockParams :=
  main_set_block_shift (main_chosen_shift sectors)

/-- Per-packet payload capacity of a candidate shift, as listed in the spec:
shift 7 carries up to 1024 payload bytes per packet, shift 6 up to 1280,
shift 5 up to 1408, shift 3 up to 1440. -/
def payload_cap (shift : Nat) : Nat :=
  if shift = 7 then 1024
  else if shift = 6 then 1280
  else if shift = 5 then 1408
  else 1440

/-- Number of packets needed to carry `size` bytes at `cap` payload bytes per
packet, as computed in `set_block_shift_sectors`: `(size + cap - 1) / cap`. -/
def packets_at (size cap : Nat) : Nat := (size + cap - 1) / cap

/-- The cascade exactly as the claim words it, with exact ceiling division. -/
def cascade_shift_claim (sectors : Nat) : Nat :=
  let size := sectors * 512
  let packets_min := ceil_div_spec size 1440
  if ceil_div_spec size 1024 = packets_min then 7
  else if ceil_div_spec size 1280 = packets_min then 6
  else if ceil_div_spec size 1408 = packets_min then 5
  else 3

/-! ## server.rs handlers -/

/-- `Server::handle_cmd_info` (src/server.rs): the reply sent back. -/
def handle_cmd_info (command_id sector_count : Nat) : InfoReply :=
  { command := 1
    command_id := command_id
    command_pkt := 1
    sector_size := bytes_per_sector
    sector_count := sector_count }

/-- `Server::handle_cmd_write` (src/server.rs): the new `write_size_left`,
`sector_count * sector_size` on `usize` (exact: `sector_count < 2^16`). -/
def handle_cmd_write (sector_count : Nat) : Nat :=
  sector_count * bytes_per_sector

/-- `Server::handle_cmd_write_rdma` (src/server.rs).  Input: the current
`write_size_left`, `write_rdma_valid`, and the request's BlockType fields and
command id.  Output: `none` when `&req.data[..size]` panics (`size` exceeds
the 1466-byte buffer), otherwise the new `write_size_left` and the reply, if
any.  `VexFat::write` discards its input and always succeeds, so
`write_rdma_valid` does not affect the result.  `checked_sub` with the
`None` arm setting 0 is saturating subtraction, i.e. `Nat` subtraction. -/
def handle_cmd_write_rdma (write_size_left : Nat) (_write_rdma_valid : Bool)
    (block_shift block_count command_id : Nat) : Option (Nat × Option WriteReply) :=
  let size := blocks_size block_shift block_count
  if RDMA_MAX_PAYLOAD < size then none
  else
    let left := write_size_left - size
    some (left,
      if left = 0 then
        some { command := 6, command_id := command_id,
               command_pkt := command_id + 1, result := 0 }
      else none)

/-- One emitted `ReadRdma` packet: header fields, BlockType fields, and the
payload bytes actually sent (`ser[..2+4+size]` minus header and block type). -/
structure RdmaPacket where
  command : Nat
  command_id : Nat
  command_pkt : Nat
  block_shift : Nat
  block_count : Nat
  payload : List Nat
deriving DecidableEq, Repr

/-- The `while blocks_left > 0` loop of `Server::handle_cmd_read`
(src/server.rs).  `dev pos` is the device byte at absolute offset `pos`
(reads are modelled as succeeding; on a failed seek, `seeked = false`, the
reply buffer keeps its zero initialization).  `fuel` bounds the iteration
count; since every iteration emits at least one block whenever
`blocks_per_packet ≥ 1`, `fuel = blocks_left` makes the recursion exact.
`command_pkt + 1` is a `u8` addition and `block_count * block_size` a
`u16` multiplication. -/
def read_loop (dev : Nat → Nat) (seeked : Bool)
    (command_id block_shift block_size blocks_per_packet : Nat) :
    Nat → Nat → Nat → Nat → List RdmaPacket
  | 0, _, _, _ => []
  | _ + 1, 0, _, _ => []
  | fuel + 1, bl + 1, pkt, pos =>
    let blocks_left := bl + 1
    let block_count := if blocks_per_packet < blocks_left then blocks_per_packet else blocks_left
    let size := wrap16 (block_count * block_size)
    let payload :=
      if seeked then (List.range size).map (fun i => dev (pos + i))
      else List.replicate size 0
    { command := 3
      command_id := command_id
      command_pkt := pkt
      block_shift := block_shift
      block_count := block_count
      payload := payload } ::
      read_loop dev seeked command_id block_shift block_size blocks_per_packet
        fuel (blocks_left - block_count) (wrap8 (pkt + 1)) (pos + size)

/-- `Server::handle_cmd_read` (src/server.rs): tune the block shift from the
requested sector count, seek to `sector_nr` (byte offset `sector_nr * 512`),
then emit the packet burst.  `blocks_left = sector_count * blocks_per_socket`
is a `u16` multiplication. -/
def handle_cmd_read (dev : Nat → Nat) (seeked : Bool)
    (command_id sector_nr sector_count : Nat) : List RdmaPacket :=
  let p := vexfat_set_block_shift_sectors sector_count
  let blocks_left := wrap16 (sector_count * p.blocks_per_socket)
  read_loop dev seeked command_id p.block_shift p.block_size p.blocks_per_packet
    blocks_left blocks_left 1 (sector_nr * bytes_per_sector)

/-- Total payload bytes across a packet list. -/
def total_payload (l : List RdmaPacket) : Nat :=
  (l.map (fun p => p.payload.length)).sum

/-! ## Theorems -/

theorem bytes_per_sector_eq : bytes_per_sector = 512 := rfl

theorem RDMA_MAX_PAYLOAD_eq : RDMA_MAX_PAYLOAD = 1466 := rfl

theorem bytes_per_cluster_eq : bytes_per_cluster = 2 ^ 20 := rfl

/-- Claim C9: the two block-size tuning implementations are extensionally
equal: for every sector count, `Server::set_block_shift_sectors` in main.rs
and `VexFat::set_block_shift_sectors` in vexfat.rs select the same shift and
derive the same `block_size`, `blocks_per_packet` and `blocks_per_socket`;
likewise `set_block_shift` on every shift input. -/
theorem tuning_implementations_agree :
    (∀ sectors, main_set_block_shift_sectors sectors = vexfat_set_block_shift_sectors sectors) ∧
    (∀ shift, main_set_block_shift shift = vexfat_set_block_shift shift) :=
  ⟨fun _ => rfl, fun _ => rfl⟩

/-- Claim C6: for every Info request, the server sends exactly one 10-byte
InfoReply with command 0x01, the request's command_id, command_pkt 1,
sector_size 512, and the image's sector count. -/
theorem info_reply_correct (command_id sector_count : Nat) :
    (serialize_info_reply (handle_cmd_info command_id sector_count)).length = 10 ∧
    (handle_cmd_info command_id sector_count).command = 1 ∧
    (handle_cmd_info command_id sector_count).command_id = command_id ∧
    (handle_cmd_info command_id sector_count).command_pkt = 1 ∧
    (handle_cmd_info command_id sector_count).sector_size = 512 ∧
    (handle_cmd_info command_id sector_count).sector_count = sector_count := by
  refine ⟨?_, rfl, rfl, rfl, rfl, rfl⟩
  simp [serialize_info_reply, le_bytes, handle_cmd_info]

/-- Claim C3 (evaluation at the failing input): a WriteRdma packet with
block_shift 9 and block_count 1 has `blocks_size` 2048, which exceeds the
1466-byte data buffer, so `&req.data[..size]` in
`Server::handle_cmd_write_rdma` panics (modelled as `none`): the handler is
not total over block_shift 0..15, block_count 0..511. -/
theorem write_rdma_oversized_block_panics :
    blocks_size 9 1 = 2048 ∧ RDMA_MAX_PAYLOAD < blocks_size 9 1 ∧
    handle_cmd_write_rdma 0 false 9 1 0 = none := by
  decide

/-- Claim C1 (evaluation at the failing input): a Read request for 4096
sectors selects shift 3 (16 blocks per sector), and
`blocks_left = sector_count * blocks_per_socket` wraps to 0 in the `u16`
multiplication, so the server emits no RDMA packets at all: the total
payload is 0, not 4096 × 512 bytes. -/
theorem read_4096_sectors_emits_nothing :
    handle_cmd_read (fun _ => 0) true 0 0 4096 = [] ∧
    total_payload (handle_cmd_read (fun _ => 0) true 0 0 4096) ≠ 4096 * 512 := by
  decide

/-- Claim C10: a WriteRdma packet received while `write_size_left` is
already 0 (no open write session required) leaves it at 0 and makes the
server emit a WriteReply with command 0x06, command_pkt = command_id + 1 and
result 0, for every packet whose declared size fits the data buffer. -/
theorem write_rdma_at_zero_replies (block_shift block_count command_id : Nat)
    (valid : Bool) (hsize : blocks_size block_shift block_count ≤ RDMA_MAX_PAYLOAD) :
    handle_cmd_write_rdma 0 valid block_shift block_count command_id =
      some (0, some { command := 6, command_id := command_id,
                      command_pkt := command_id + 1, result := 0 }) := by
  unfold handle_cmd_write_rdma
  rw [if_neg (Nat.not_lt.mpr hsize)]
  simp [Nat.zero_sub]

theorem write_rdma_at_zero_replies_witness :
    handle_cmd_write_rdma 0 false 3 1 0 =
      some (0, some { command := 6, command_id := 0, command_pkt := 1, result := 0 }) :=
  write_rdma_at_zero_replies 3 1 0 false (by decide)

/-- Claim C4: a Write request for `n` sectors sets
`write_size_left = n × 512`; every subsequent WriteRdma packet (whose size
`block_count × 2^(block_shift+2)` fits the data buffer, so the handler
completes) subtracts that size with saturation at 0, and the server emits
one WriteReply with command 0x06, the request's command_id,
command_pkt = command_id + 1 and result 0 exactly when `write_size_left`
reaches 0; no reply is emitted while it is still positive. -/
theorem write_session_accounting (n block_shift block_count command_id write_size_left : Nat)
    (valid : Bool) (hshift : block_shift ≤ 13)
    (hsize : block_count * 2 ^ (block_shift + 2) ≤ RDMA_MAX_PAYLOAD) :
    handle_cmd_write n = n * 512 ∧
    handle_cmd_write_rdma write_size_left valid block_shift block_count command_id =
      some (write_size_left - block_count * 2 ^ (block_shift + 2),
        if write_size_left - block_count * 2 ^ (block_shift + 2) = 0 then
          some { command := 6, command_id := command_id,
                 command_pkt := command_id + 1, result := 0 }
        else none) ∧
    (0 < write_size_left - block_count * 2 ^ (block_shift + 2) →
      handle_cmd_write_rdma write_size_left valid block_shift block_count command_id =
        some (write_size_left - block_count * 2 ^ (block_shift + 2), none)) := by
  have hmod : (block_shift + 2) % 16 = block_shift + 2 :=
    Nat.mod_eq_of_lt (by omega)
  have hsz : blocks_size block_shift block_count = block_count * 2 ^ (block_shift + 2) := by
    unfold blocks_size wrap16
    rw [hmod, Nat.one_shiftLeft]
    exact Nat.mod_eq_of_lt (lt_of_le_of_lt hsize (by decide))
  have hmain : handle_cmd_write_rdma write_size_left valid block_shift block_count command_id =
      some (write_size_left - block_count * 2 ^ (block_shift + 2),
        if write_size_left - block_count * 2 ^ (block_shift + 2) = 0 then
          some { command := 6, command_id := command_id,
                 command_pkt := command_id + 1, result := 0 }
        else none) := by
    unfold handle_cmd_write_rdma
    rw [hsz, if_neg (Nat.not_lt.mpr hsize)]
  refine ⟨rfl, hmain, fun hpos => ?_⟩
  rw [hmain, if_neg (Nat.pos_iff_ne_zero.mp hpos)]

theorem write_session_accounting_witness :
    handle_cmd_write 2 = 1024 ∧
    handle_cmd_write_rdma 1024 true 7 1 3 = some (512, none) := by
  have h := write_session_accounting 2 7 1 3 1024 true (by decide) (by decide)
  exact ⟨h.1, h.2.1.trans (by decide)⟩

/-- The read loop emits, on a failed seek, the same packet sequence as on a
successful one with every payload replaced by zeros of the same length. -/
theorem read_loop_zero_fill (dev : Nat → Nat)
    (command_id block_shift block_size blocks_per_packet : Nat) :
    ∀ fuel blocks_left pkt pos,
      read_loop dev false command_id block_shift block_size blocks_per_packet
          fuel blocks_left pkt pos =
        (read_loop dev true command_id block_shift block_size blocks_per_packet
            fuel blocks_left pkt pos).map
          (fun p => { p with payload := List.replicate p.payload.length 0 }) := by
  intro fuel
  induction fuel with
  | zero => intro blocks_left pkt pos; rfl
  | succ fuel ih =>
    intro blocks_left pkt pos
    cases blocks_left with
    | zero => rfl
    | succ b => simp [read_loop, ih]

/-- Claim C5: on a Read whose block-device seek fails, the server emits the
same number of RDMA packets, with the same header fields, block type and
payload lengths, as on a successful seek, but with every payload byte zero. -/
theorem read_seek_failure_zero_shape (dev : Nat → Nat)
    (command_id sector_nr sector_count : Nat) :
    handle_cmd_read dev false command_id sector_nr sector_count =
      (handle_cmd_read dev true command_id sector_nr sector_count).map
        (fun p => { p with payload := List.replicate p.payload.length 0 }) := by
  unfold handle_cmd_read
  apply read_loop_zero_fill

/-- Every packet the read loop emits carries the loop's shift, a block count
between 1 and `blocks_per_packet`, and exactly `block_count * block_size`
payload bytes (the `u16` product does not wrap under the packet cap). -/
theorem read_loop_packet_shape (dev : Nat → Nat) (seeked : Bool)
    (command_id block_shift block_size blocks_per_packet : Nat)
    (hbpp : 1 ≤ blocks_per_packet) (hcap : blocks_per_packet * block_size ≤ 1466) :
    ∀ fuel blocks_left pkt pos p,
      p ∈ read_loop dev seeked command_id block_shift block_size blocks_per_packet
            fuel blocks_left pkt pos →
        p.command = 3 ∧ p.block_shift = block_shift ∧
          1 ≤ p.block_count ∧ p.block_count ≤ blocks_per_packet ∧
          p.payload.length = p.block_count * block_size := by
  intro fuel
  induction fuel with
  | zero => intro blocks_left pkt pos p hp; simp [read_loop] at hp
  | succ fuel ih =>
    intro blocks_left pkt pos p hp
    cases blocks_left with
    | zero => simp [read_loop] at hp
    | succ b =>
      simp only [read_loop, List.mem_cons] at hp
      rcases hp with rfl | hp
      · have hbc : (if blocks_per_packet < b + 1 then blocks_per_packet else b + 1) ≤
            blocks_per_packet := by split <;> omega
        have hsz : wrap16 ((if blocks_per_packet < b + 1 then blocks_per_packet else b + 1) *
            block_size) =
            (if blocks_per_packet < b + 1 then blocks_per_packet else b + 1) * block_size := by
          apply Nat.mod_eq_of_lt
          calc (if blocks_per_packet < b + 1 then blocks_per_packet else b + 1) * block_size
              ≤ blocks_per_packet * block_size := Nat.mul_le_mul_right _ hbc
            _ < 65536 := by omega
        refine ⟨rfl, rfl, by dsimp only; split <;> omega, by dsimp only; exact hbc, ?_⟩
        dsimp only
        rw [apply_ite List.length]
        simp only [List.length_map, List.length_range, List.length_replicate, ite_self]
        exact hsz
      · exact ih _ _ _ p hp

/-- Packets of `handle_cmd_read` when the tuned parameters are known. -/
theorem handle_read_packet_shape {dev : Nat → Nat} {seeked : Bool}
    {command_id sector_nr sector_count : Nat} {shift bs bpp bps : Nat}
    (hset : vexfat_set_block_shift_sectors sector_count = ⟨shift, bs, bpp, bps⟩)
    (hbpp : 1 ≤ bpp) (hcap : bpp * bs ≤ 1466) (hbs : bs = 2 ^ (shift + 2))
    (h4 : bs % 4 = 0) :
    ∀ p ∈ handle_cmd_read dev seeked command_id sector_nr sector_count,
      p.payload.length = p.block_count * 2 ^ (p.block_shift + 2) ∧
      2 + 4 + p.payload.length ≤ UDP_MAX_PAYLOAD ∧
      (2 + 4 + p.payload.length) % 4 = 2 := by
  intro p hp
  unfold handle_cmd_read at hp
  rw [hset] at hp
  obtain ⟨-, hshift, -, hbc, hlen⟩ :=
    read_loop_packet_shape dev seeked command_id shift bs bpp hbpp hcap _ _ _ _ p hp
  obtain ⟨k, hk⟩ := (Nat.dvd_of_mod_eq_zero h4 : 4 ∣ bs)
  have hlen4 : p.payload.length = 4 * (p.block_count * k) := by
    rw [hlen, hk]; ring
  have hle : p.payload.length ≤ 1466 := by
    rw [hlen]
    calc p.block_count * bs ≤ bpp * bs := Nat.mul_le_mul_right _ hbc
      _ ≤ 1466 := hcap
  refine ⟨by rw [hlen, hshift, hbs], ?_, ?_⟩
  · show 2 + 4 + p.payload.length ≤ 1472
    omega
  · omega

/-- Claim C7: every ReadRdma datagram the server emits has total length
`2 + 4 + block_count * block_size` bytes where the payload length is exactly
`block_count * 2^(block_shift+2)`; that total is at most 1472 and congruent
to 2 modulo 4. -/
theorem rdma_datagram_well_formed (dev : Nat → Nat) (seeked : Bool)
    (command_id sector_nr sector_count : Nat) :
    ∀ p ∈ handle_cmd_read dev seeked command_id sector_nr sector_count,
      p.payload.length = p.block_count * 2 ^ (p.block_shift + 2) ∧
      2 + 4 + p.payload.length ≤ UDP_MAX_PAYLOAD ∧
      (2 + 4 + p.payload.length) % 4 = 2 := by
  have hshift : vexfat_chosen_shift sector_count = 7 ∨ vexfat_chosen_shift sector_count = 6 ∨
      vexfat_chosen_shift sector_count = 5 ∨ vexfat_chosen_shift sector_count = 3 := by
    simp only [vexfat_chosen_shift]
    split_ifs <;> simp
  have hset : ∀ s, vexfat_chosen_shift sector_count = s →
      vexfat_set_block_shift_sectors sector_count = vexfat_set_block_shift s := by
    intro s hs
    unfold vexfat_set_block_shift_sectors
    rw [hs]
  rcases hshift with h | h | h | h
  · exact handle_read_packet_shape ((hset 7 h).trans rfl) (by decide) (by decide)
      (by decide) (by decide)
  · exact handle_read_packet_shape ((hset 6 h).trans rfl) (by decide) (by decide)
      (by decide) (by decide)
  · exact handle_read_packet_shape ((hset 5 h).trans rfl) (by decide) (by decide)
      (by decide) (by decide)
  · exact handle_read_packet_shape ((hset 3 h).trans rfl) (by decide) (by decide)
      (by decide) (by decide)

set_option maxRecDepth 8192 in
theorem rdma_datagram_well_formed_witness :
    (List.replicate 512 0 : List Nat).length = 1 * 2 ^ (7 + 2) ∧
    2 + 4 + (List.replicate 512 0 : List Nat).length ≤ UDP_MAX_PAYLOAD ∧
    (2 + 4 + (List.replicate 512 0 : List Nat).length) % 4 = 2 :=
  rdma_datagram_well_formed (fun _ => 0) false 0 0 1
    ⟨3, 0, 1, 7, 1, List.replicate 512 0⟩ (by decide)

/-- Any size needing `(size + c - 1) / c` packets of capacity `c` fits in
that many packets: `size ≤ packets * c`. -/
theorem size_le_packets_mul (size c : Nat) (hc : 0 < c) :
    size ≤ (size + c - 1) / c * c := by
  have hdm := Nat.div_add_mod (size + c - 1) c
  have hlt : (size + c - 1) % c < c := Nat.mod_lt _ hc
  rw [Nat.mul_comm]
  omega

/-- If `size` fits in `m` packets of capacity `c`, then the packet count
`(size + c - 1) / c` is at most `m`. -/
theorem packets_le_of_le_mul (size c m : Nat) (hc : 0 < c) (h : size ≤ c * m) :
    (size + c - 1) / c ≤ m := by
  calc (size + c - 1) / c ≤ (c * m + (c - 1)) / c := Nat.div_le_div_right (by omega)
    _ = m + (c - 1) / c := Nat.mul_add_div hc m (c - 1)
    _ = m := by simp [Nat.div_eq_of_lt (show c - 1 < c by omega)]

/-- The packet count is antitone in the per-packet capacity. -/
theorem packets_at_anti (size a b : Nat) (ha : 0 < a) (hab : a ≤ b) :
    packets_at size b ≤ packets_at size a := by
  have hb : 0 < b := Nat.lt_of_lt_of_le ha hab
  have h1 : size ≤ (size + a - 1) / a * a := size_le_packets_mul size a ha
  have h2 : size ≤ b * ((size + a - 1) / a) := by
    rw [Nat.mul_comm]
    calc size ≤ (size + a - 1) / a * a := h1
      _ ≤ (size + a - 1) / a * b := Nat.mul_le_mul_left _ hab
  unfold packets_at
  exact packets_le_of_le_mul size b _ hb h2

/-- Exact ceiling division agrees with the code's `(size + c - 1) / c`. -/
theorem ceil_div_spec_eq_packets_at (s c : Nat) (hc : 0 < c) :
    ceil_div_spec s c = packets_at s c := by
  have hdm := Nat.div_add_mod s c
  have hr : s % c < c := Nat.mod_lt _ hc
  unfold ceil_div_spec packets_at
  split_ifs with h
  · have hs : s + c - 1 = c * (s / c) + (c - 1) := by omega
    rw [hs, Nat.mul_add_div hc]
    simp [Nat.div_eq_of_lt (show c - 1 < c by omega)]
  · have hs : s + c - 1 = c * (s / c) + c + (s % c - 1) := by omega
    have hs2 : c * (s / c) + c + (s % c - 1) = c * (s / c + 1) + (s % c - 1) := by ring
    rw [hs, hs2, Nat.mul_add_div hc]
    simp [Nat.div_eq_of_lt (show s % c - 1 < c by omega)]

/-- Claim C2: for every requested sector count, with
`size = sector_count × 512`, the shift chosen by `set_block_shift_sectors`
is one of {7, 6, 5, 3}, attains the minimum of `ceil(size / payload(shift))`
over those candidates, breaks ties towards the largest block size
`2^(shift+2)`, and equals the cascade as the claim words it (with exact
ceiling division). -/
theorem block_shift_selection_optimal (sectors : Nat) :
    (vexfat_chosen_shift sectors = 7 ∨ vexfat_chosen_shift sectors = 6 ∨
      vexfat_chosen_shift sectors = 5 ∨ vexfat_chosen_shift sectors = 3) ∧
    (∀ t, t = 7 ∨ t = 6 ∨ t = 5 ∨ t = 3 →
      packets_at (sectors * 512) (payload_cap (vexfat_chosen_shift sectors)) ≤
        packets_at (sectors * 512) (payload_cap t) ∧
      (packets_at (sectors * 512) (payload_cap t) =
          packets_at (sectors * 512) (payload_cap (vexfat_chosen_shift sectors)) →
        2 ^ (t + 2) ≤ 2 ^ (vexfat_chosen_shift sectors + 2))) ∧
    vexfat_chosen_shift sectors = cascade_shift_claim sectors := by
  have c7 : payload_cap 7 = 1024 := rfl
  have c6 : payload_cap 6 = 1280 := rfl
  have c5 : payload_cap 5 = 1408 := rfl
  have c3 : payload_cap 3 = 1440 := rfl
  have hmin : ∀ t, t = 7 ∨ t = 6 ∨ t = 5 ∨ t = 3 →
      packets_at (sectors * 512) 1440 ≤ packets_at (sectors * 512) (payload_cap t) := by
    intro t ht
    rcases ht with rfl | rfl | rfl | rfl
    · rw [c7]; exact packets_at_anti _ _ _ (by norm_num) (by norm_num)
    · rw [c6]; exact packets_at_anti _ _ _ (by norm_num) (by norm_num)
    · rw [c5]; exact packets_at_anti _ _ _ (by norm_num) (by norm_num)
    · rw [c3]
  have key : vexfat_chosen_shift sectors =
      (if packets_at (sectors * 512) 1024 = packets_at (sectors * 512) 1440 then 7
       else if packets_at (sectors * 512) 1280 = packets_at (sectors * 512) 1440 then 6
       else if packets_at (sectors * 512) 1408 = packets_at (sectors * 512) 1440 then 5
       else 3) := rfl
  have e1 := ceil_div_spec_eq_packets_at (sectors * 512) 1024 (by norm_num)
  have e2 := ceil_div_spec_eq_packets_at (sectors * 512) 1280 (by norm_num)
  have e3 := ceil_div_spec_eq_packets_at (sectors * 512) 1408 (by norm_num)
  have e4 := ceil_div_spec_eq_packets_at (sectors * 512) 1440 (by norm_num)
  have key2 : cascade_shift_claim sectors =
      (if packets_at (sectors * 512) 1024 = packets_at (sectors * 512) 1440 then 7
       else if packets_at (sectors * 512) 1280 = packets_at (sectors * 512) 1440 then 6
       else if packets_at (sectors * 512) 1408 = packets_at (sectors * 512) 1440 then 5
       else 3) := by
    have keyc : cascade_shift_claim sectors =
        (if ceil_div_spec (sectors * 512) 1024 = ceil_div_spec (sectors * 512) 1440 then 7
         else if ceil_div_spec (sectors * 512) 1280 = ceil_div_spec (sectors * 512) 1440 then 6
         else if ceil_div_spec (sectors * 512) 1408 = ceil_div_spec (sectors * 512) 1440 then 5
         else 3) := rfl
    rw [keyc]
    simp only [e1, e2, e3, e4]
  by_cases h1 : packets_at (sectors * 512) 1024 = packets_at (sectors * 512) 1440
  · have hs : vexfat_chosen_shift sectors = 7 := by rw [key, if_pos h1]
    refine ⟨Or.inl hs, fun t ht => ?_, by rw [hs, key2, if_pos h1]⟩
    rw [hs, c7]
    refine ⟨by rw [h1]; exact hmin t ht, fun _ => ?_⟩
    rcases ht with rfl | rfl | rfl | rfl <;> norm_num
  · by_cases h2 : packets_at (sectors * 512) 1280 = packets_at (sectors * 512) 1440
    · have hs : vexfat_chosen_shift sectors = 6 := by rw [key, if_neg h1, if_pos h2]
      refine ⟨Or.inr (Or.inl hs), fun t ht => ?_,
        by rw [hs, key2, if_neg h1, if_pos h2]⟩
      rw [hs, c6]
      refine ⟨by rw [h2]; exact hmin t ht, ?_⟩
      rcases ht with rfl | rfl | rfl | rfl
      · rw [c7]; intro hEq; exact absurd (hEq.trans h2) h1
      · intro _; norm_num
      · intro _; norm_num
      · intro _; norm_num
    · by_cases h3 : packets_at (sectors * 512) 1408 = packets_at (sectors * 512) 1440
      · have hs : vexfat_chosen_shift sectors = 5 := by
          rw [key, if_neg h1, if_neg h2, if_pos h3]
        refine ⟨Or.inr (Or.inr (Or.inl hs)), fun t ht => ?_,
          by rw [hs, key2, if_neg h1, if_neg h2, if_pos h3]⟩
        rw [hs, c5]
        refine ⟨by rw [h3]; exact hmin t ht, ?_⟩
        rcases ht with rfl | rfl | rfl | rfl
        · rw [c7]; intro hEq; exact absurd (hEq.trans h3) h1
        · rw [c6]; intro hEq; exact absurd (hEq.trans h3) h2
        · intro _; norm_num
        · intro _; norm_num
      · have hs : vexfat_chosen_shift sectors = 3 := by
          rw [key, if_neg h1, if_neg h2, if_neg h3]
        refine ⟨Or.inr (Or.inr (Or.inr hs)), fun t ht => ?_,
          by rw [hs, key2, if_neg h1, if_neg h2, if_neg h3]⟩
        rw [hs, c3]
        refine ⟨hmin t ht, ?_⟩
        rcases ht with rfl | rfl | rfl | rfl
        · rw [c7]; intro hEq; exact absurd hEq h1
        · rw [c6]; intro hEq; exact absurd hEq h2
        · rw [c5]; intro hEq; exact absurd hEq h3
        · intro _; norm_num

theorem block_shift_selection_optimal_witness :
    packets_at (3 * 512) (payload_cap (vexfat_chosen_shift 3)) ≤
      packets_at (3 * 512) (payload_cap 6) :=
  (((block_shift_selection_optimal 3).2.1) 6 (Or.inr (Or.inl rfl))).1

/-- At a zero-byte file tree (9 directories, 0 files — the state of an empty
root after the default OPL directories are created), the `u64` cluster count
computed by `VexFat::new` differs from the claim's exact formula: the
rounded-up division underflows, so the code yields `2^44 + 28` where the
formula gives 28 (debug builds panic on the subtraction instead). -/
theorem cluster_count_zero_bytes_diverges :
    cluster_count_code 0 9 0 ≠ cluster_count_claim 0 9 0 := by
  decide

/-- For arguments in range, the code's wrapping align-to-2 agrees with the
spec's "rounded up to a multiple of 2". -/
theorem align64_eq_align2 (a : Nat) (h1 : 1 ≤ a) (h2 : a ≤ 2 ^ 43) :
    unsigned_align_to64 a 2 = align2_spec a := by
  unfold unsigned_align_to64 unsigned_rounded_up_div64 align2_spec ceil_div_spec wrap64
  norm_num
  split_ifs <;> omega

/-- Claim C8 (amended): at image construction, for every input tree with at
least one mapped-file byte (sizes within the range actually reachable),
`cluster_count` equals `ceil(total_file_bytes / 2^20) + 3 × (dirs + files)`
rounded up to a multiple of 2, exactly, and `sector_count` equals
`cluster_count × 2048`. -/
theorem geometry_formula (total_files_bytes total_dirs_count total_files_count : Nat)
    (h1 : 1 ≤ total_files_bytes) (h2 : total_files_bytes ≤ 2 ^ 60)
    (h3 : total_dirs_count + total_files_count ≤ 2 ^ 40) :
    cluster_count_code total_files_bytes total_dirs_count total_files_count =
      cluster_count_claim total_files_bytes total_dirs_count total_files_count ∧
    sector_count_code total_files_bytes total_dirs_count total_files_count =
      cluster_count_claim total_files_bytes total_dirs_count total_files_count * 2048 := by
  have hbc : bytes_per_cluster = 1048576 := rfl
  have hsc : (1 <<< 11 : Nat) = 2048 := rfl
  have hA1 : unsigned_rounded_up_div64 total_files_bytes bytes_per_cluster =
      (total_files_bytes - 1) / 1048576 + 1 := by
    rw [hbc]
    unfold unsigned_rounded_up_div64 wrap64
    norm_num
    omega
  have hA2 : wrap64 (unsigned_rounded_up_div64 total_files_bytes bytes_per_cluster +
      3 * (total_dirs_count + total_files_count)) =
      (total_files_bytes - 1) / 1048576 + 1 +
        3 * (total_dirs_count + total_files_count) := by
    rw [hA1]
    unfold wrap64
    norm_num
    omega
  have hceilspec : ceil_div_spec total_files_bytes (2 ^ 20) =
      (total_files_bytes - 1) / 1048576 + 1 := by
    unfold ceil_div_spec
    norm_num
    split_ifs <;> omega
  have hclu : cluster_count_code total_files_bytes total_dirs_count total_files_count =
      align2_spec ((total_files_bytes - 1) / 1048576 + 1 +
        3 * (total_dirs_count + total_files_count)) := by
    unfold cluster_count_code
    rw [hA2]
    exact align64_eq_align2 _ (by omega) (by omega)
  have hclaim : cluster_count_claim total_files_bytes total_dirs_count total_files_count =
      align2_spec ((total_files_bytes - 1) / 1048576 + 1 +
        3 * (total_dirs_count + total_files_count)) := by
    unfold cluster_count_claim
    rw [hceilspec]
  have hsec : sector_count_code total_files_bytes total_dirs_count total_files_count =
      align2_spec ((total_files_bytes - 1) / 1048576 + 1 +
        3 * (total_dirs_count + total_files_count)) * 2048 := by
    unfold sector_count_code
    rw [hclu, hsc]
    unfold wrap64 align2_spec ceil_div_spec
    split_ifs <;> omega
  exact ⟨hclu.trans hclaim.symm, hsec.trans (by rw [hclaim])⟩

theorem geometry_formula_witness :
    cluster_count_code 1 9 0 = cluster_count_claim 1 9 0 ∧
    sector_count_code 1 9 0 = cluster_count_claim 1 9 0 * 2048 :=
  geometry_formula 1 9 0 (by decide) (by decide) (by decide)

end UdpbdVexfat
